import Mathlib

/-!
Shallow embedding of `src/core/gptmail_client.py` (class `GPTMailClient`).

The client's side effects are made explicit:
* every operation returns its result together with a list of `Event`s
  (network requests, sleeps, log lines, calls to the code extractor);
* Python exceptions are modelled with `Except PyExn`; a `try/except`
  block becomes a `match` on the `Except` value of the embedded block;
* the HTTP provider is a parameter: each request site receives a
  `TransportOutcome` describing what `requests.request` / `res.json()`
  would have produced there;
* `extract_verification_code` (from `core.mail_utils`, an external
  collaborator whose contract is `text -> optional code`) and
  `datetime.strptime` are parameters; timestamps live in an arbitrary
  linearly ordered type `DT` (mirroring `datetime` comparison);
* Python truthiness of optional strings (`if not self.email`,
  `if domain:`, `if code:`, `if created_at_str:`) is `truthyStr`.
-/

namespace GPTMail

/-- Python exceptions that the embedded code can raise. -/
inductive PyExn where
  | zeroDivisionError
  | valueError (msg : String)
  | keyError (key : String)
  | requestException (msg : String)
  | jsonDecodeError (msg : String)
deriving DecidableEq, Repr

/-- Rendering used where the source logs `f"{e}"`. -/
def PyExn.str : PyExn → String
  | .zeroDivisionError => "integer division or modulo by zero"
  | .valueError m => m
  | .keyError k => k
  | .requestException m => m
  | .jsonDecodeError m => m

/-- Observable effects of the client. -/
inductive Event where
  | netRequest (method url : String) (jsonPayload : Option (String × String))
  | sleep (seconds : Int)
  | log (level message : String)
  | extractCall (text : String)
deriving DecidableEq, Repr

def Event.isNetRequest : Event → Bool
  | .netRequest _ _ _ => true
  | _ => false

def Event.isSleep : Event → Bool
  | .sleep _ => true
  | _ => false

def Event.isExtractCall : Event → Bool
  | .extractCall _ => true
  | _ => false

/-- One message of the provider's `emails` array: `msg.get("created_at")`,
`msg.get("content", "")`, `msg.get("html_content", "")`. -/
structure Message where
  created_at : Option String
  content : String
  html_content : String
deriving DecidableEq, Repr

/-- Mutable state of a `GPTMailClient` instance. -/
structure ClientState where
  base_url : String
  api_key : String
  email : Option String
deriving DecidableEq, Repr

/-- Python truthiness of an optional string: `None` and `""` are falsy. -/
def truthyStr : Option String → Bool
  | none => false
  | some s => s ≠ ""

/-- What one call of `requests.request` produced: an exception, or a
response with a status code and a body (the body is examined only if and
when `res.json()` is called). -/
inductive TransportOutcome (β : Type) where
  | exn (e : PyExn)
  | resp (status : Int) (body : β)
deriving DecidableEq, Repr

/-- Body of a `/api/generate-email` response as `register_account` reads
it: `res.json()` may itself raise; otherwise we record the truthiness of
`data.get("success")`, the value of `data["data"]["email"]` (`none`
models a `KeyError` on the subscripts) and `data.get("error")`. -/
inductive RegBody where
  | jsonError (e : PyExn)
  | fields (success : Bool) (dataEmail : Option String) (errMsg : Option String)
deriving DecidableEq, Repr

/-- Body of a `/api/emails` response as `_fetch_verification_code` reads
it: `res.json()` may raise; otherwise the truthiness of
`data.get("success")` and `data.get("data", {}).get("emails", [])`. -/
inductive FetchBody where
  | jsonError (e : PyExn)
  | payload (success : Bool) (emails : List Message)
deriving DecidableEq, Repr

/-- Method `GPTMailClient._request`: logs the outgoing request, performs it, and
on failure logs and re-raises. Always emits exactly one `netRequest`
event (`requests.request` is invoked in every case). -/
def request_ {β : Type} (method url : String) (jsonPayload : Option (String × String))
    (outcome : TransportOutcome β) : Except PyExn (Int × β) × List Event :=
  let sendMsg := "📤 Sending " ++ method ++ " request: " ++ url
  let ev : List Event := [Event.log "info" sendMsg, Event.netRequest method url jsonPayload]
  match outcome with
  | .exn e =>
    let es := e.str
    (Except.error e, ev ++ [Event.log "error" ("❌ Network request failed: " ++ es)])
  | .resp status body => (Except.ok (status, body), ev)

section WithTime

variable {DT : Type} [LinearOrder DT]

/-- The `for msg in emails:` loop of `_fetch_verification_code`:
stale-message filter, then concatenation of `content` and `html_content`
and the call to `extract_verification_code`. `extract` and `strptime`
are the external collaborators; an `extractCall` event records each text
handed to the extractor. -/
def scanMessages (extract : String → Option String) (strptime : String → Option DT)
    (since_time : Option DT) : List Message → Option String × List Event
  | [] => (none, [])
  | msg :: rest =>
    let skip : Bool :=
      match since_time with
      | none => false
      | some t =>
        match msg.created_at with
        | none => false
        | some s =>
          if s = "" then false
          else
            match strptime s with
            | none => false
            | some mt => decide (mt < t)
    if skip then scanMessages extract strptime since_time rest
    else
      let full_text := msg.content ++ " " ++ msg.html_content
      let evs : List Event := [Event.extractCall full_text]
      match extract full_text with
      | some c =>
        if c = "" then
          let (r, ev2) := scanMessages extract strptime since_time rest
          (r, evs ++ ev2)
        else
          (some c, evs ++ [Event.log "info" ("🎉 Verification code found: " ++ c)])
      | none =>
        let (r, ev2) := scanMessages extract strptime since_time rest
        (r, evs ++ ev2)

/-- The `try:` block of `_fetch_verification_code`. -/
def fetch_body (extract : String → Option String) (strptime : String → Option DT)
    (st : ClientState) (since_time : Option DT) (outcome : TransportOutcome FetchBody) :
    Except PyExn (Option String) × List Event :=
  let url := st.base_url ++ "/api/emails"
  match request_ "GET" url none outcome with
  | (Except.error e, ev) => (Except.error e, ev)
  | (Except.ok (status, body), ev) =>
    if status ≠ 200 then (Except.ok none, ev)
    else
      match body with
      | .jsonError e => (Except.error e, ev)
      | .payload success emails =>
        if ¬ success then (Except.ok none, ev)
        else if emails = [] then (Except.ok none, ev)
        else
          let (r, ev2) := scanMessages extract strptime since_time emails
          (Except.ok r, ev ++ ev2)

/-- Method `GPTMailClient._fetch_verification_code`: the `try:` block with its
`except Exception` handler, which logs and returns `None`. -/
def fetch_verification_code (extract : String → Option String) (strptime : String → Option DT)
    (st : ClientState) (since_time : Option DT) (outcome : TransportOutcome FetchBody) :
    Option String × List Event :=
  match fetch_body extract strptime st since_time outcome with
  | (Except.ok r, ev) => (r, ev)
  | (Except.error e, ev) =>
    let es := e.str
    (none, ev ++ [Event.log "error" ("❌ Fetch error: " ++ es)])

/-- The `for i in range(1, max_retries + 1):` loop of `poll_for_code`,
over the explicit list of attempt indices. `fetchAt i` is the result and
trace of the fetch on attempt `i`. `time.sleep(interval)` raises a
`ValueError` when `interval` is negative. -/
def pollLoop (fetchAt : Nat → Option String × List Event) (interval : Int)
    (max_retries : Nat) : List Nat → Except PyExn (Option String) × List Event
  | [] => (Except.ok none, [])
  | i :: rest =>
    let (code, ev) := fetchAt i
    if truthyStr code then (Except.ok code, ev)
    else
      if i < max_retries then
        if interval < 0 then
          (Except.error (PyExn.valueError "sleep length must be non-negative"), ev)
        else
          let (r, ev2) := pollLoop fetchAt interval max_retries rest
          (r, ev ++ Event.sleep interval :: ev2)
      else
        let (r, ev2) := pollLoop fetchAt interval max_retries rest
        (r, ev ++ ev2)

/-- Method `GPTMailClient.poll_for_code`. `provider i` is what the transport
would produce on the fetch of attempt `i`. `timeout // interval` is
Python floor division, raising `ZeroDivisionError` when `interval = 0`;
`range(1, max_retries + 1)` is empty when `max_retries ≤ 0`. -/
def poll_for_code (extract : String → Option String) (strptime : String → Option DT)
    (st : ClientState) (timeout interval : Int) (since_time : Option DT)
    (provider : Nat → TransportOutcome FetchBody) :
    Except PyExn (Option String) × List Event :=
  if truthyStr st.email = false then
    (Except.ok none, [Event.log "error" "❌ No email address to poll for"])
  else if interval = 0 then (Except.error PyExn.zeroDivisionError, [])
  else
    let max_retries := Int.fdiv timeout interval
    let pollMsg := "⏱️ Polling for code (timeout " ++ toString timeout ++ "s)..."
    let ev0 : List Event := [Event.log "info" pollMsg]
    let fetchAt := fun i => fetch_verification_code extract strptime st since_time (provider i)
    let idxs := (List.range max_retries.toNat).map (fun n => n + 1)
    match pollLoop fetchAt interval max_retries.toNat idxs with
    | (Except.ok none, ev) =>
      let outMsg := "⏰ Polling timed out after " ++ toString timeout ++ "s"
      (Except.ok none, ev0 ++ ev ++ [Event.log "error" outMsg])
    | (r, ev) => (r, ev0 ++ ev)

end WithTime

/-- Python's `string.ascii_lowercase`. -/
def ascii_lowercase : List Char := "abcdefghijklmnopqrstuvwxyz".toList

/-- Python's `string.digits`. -/
def string_digits : List Char := "0123456789".toList

/-- Python's `random.choices(population, k=k)`: `k` independent draws from
`population`; the random source is modelled by `rng`, each draw taking
the element at index `rng i` modulo the population size. -/
def random_choices (population : List Char) (rng : Nat → Nat) (k : Nat) : List Char :=
  (List.range k).map (fun i => population.getD (rng i % population.length) 'a')

/-- The generated local-part of `register_account`:
`"".join(random.choices(string.ascii_lowercase + string.digits, k=10))`. -/
def generatedLocalPart (rng : Nat → Nat) : String :=
  String.mk (random_choices (ascii_lowercase ++ string_digits) rng 10)

/-- The `try:` block of `register_account`: branch on the truthiness of
`domain`, issue the request, and on HTTP 200 with a truthy success flag
store the returned address. `none` for `dataEmail` models a `KeyError`
raised by `data["data"]["email"]` before any assignment to
`self.email`. -/
def register_try (st : ClientState) (domain : Option String) (rng : Nat → Nat)
    (outcome : TransportOutcome RegBody) :
    Except PyExn Bool × ClientState × List Event :=
  let url := st.base_url ++ "/api/generate-email"
  let branch : List Event × String × Option (String × String) :=
    if truthyStr domain then
      let p := generatedLocalPart rng
      let d := domain.getD ""
      ([Event.log "info" ("📤 Requesting email with domain: " ++ d)], "POST", some (p, d))
    else
      ([Event.log "info" "📤 Requesting random email..."], "GET", none)
  match branch with
  | (branchEv, method, jsonPayload) =>
    match request_ method url jsonPayload outcome with
    | (Except.error e, ev) => (Except.error e, st, branchEv ++ ev)
    | (Except.ok (status, body), ev) =>
      let evs := branchEv ++ ev
      if status = 200 then
        match body with
        | .jsonError e => (Except.error e, st, evs)
        | .fields success dataEmail errMsg =>
          if success then
            match dataEmail with
            | none => (Except.error (PyExn.keyError "data"), st, evs)
            | some em =>
              (Except.ok true, { st with email := some em },
                evs ++ [Event.log "info" ("✅ Email generated: " ++ em)])
          else
            let emsg := errMsg.getD "None"
            (Except.ok false, st, evs ++ [Event.log "error" ("❌ API Error: " ++ emsg)])
      else
        (Except.ok false, st,
          evs ++ [Event.log "error" ("❌ Request failed: HTTP " ++ toString status)])

/-- Method `GPTMailClient.register_account`: the `try:` block with its
`except Exception` handler (log the exception, fall through to
`return False`). -/
def register_account (st : ClientState) (domain : Option String) (rng : Nat → Nat)
    (outcome : TransportOutcome RegBody) :
    Except PyExn Bool × ClientState × List Event :=
  match register_try st domain rng outcome with
  | (Except.ok b, st2, ev) => (Except.ok b, st2, ev)
  | (Except.error e, st2, ev) =>
    let es := e.str
    (Except.ok false, st2, ev ++ [Event.log "error" ("❌ Exception during registration: " ++ es)])

/-- The failure categories of `register_account` named by the spec:
transport exception, non-200 status, or a body that is not a success
(`res.json()` raising, or a falsy success flag). -/
def regNonSuccess : TransportOutcome RegBody → Bool
  | .exn _ => true
  | .resp status body =>
    if status ≠ 200 then true
    else
      match body with
      | .jsonError _ => true
      | .fields success _ _ => ¬ success

/-- The network requests of a trace, in order. -/
def netRequests (ev : List Event) : List Event := ev.filter Event.isNetRequest

end GPTMail

namespace GPTMail

theorem countP_net_request {β : Type} (method url : String)
    (jsonPayload : Option (String × String)) (outcome : TransportOutcome β) :
    (request_ method url jsonPayload outcome).2.countP Event.isNetRequest = 1 := by
  cases outcome <;> simp [request_, Event.isNetRequest]

theorem countP_scanMessages {DT : Type} [LinearOrder DT]
    (extract : String → Option String) (strptime : String → Option DT)
    (since_time : Option DT) :
    ∀ l : List Message,
      (scanMessages extract strptime since_time l).2.countP Event.isNetRequest = 0
  | [] => by simp [scanMessages]
  | msg :: rest => by
    have ih := countP_scanMessages extract strptime since_time rest
    rcases h : scanMessages extract strptime since_time rest with ⟨r, ev2⟩
    rw [h] at ih
    simp only [scanMessages, h]
    split
    · simpa using ih
    · cases hx : extract (msg.content ++ " " ++ msg.html_content) with
      | none => simpa [Event.isNetRequest] using ih
      | some c =>
        by_cases hc : c = "" <;>
          simp [hc, Event.isNetRequest, ih]

theorem countP_fetch {DT : Type} [LinearOrder DT]
    (extract : String → Option String) (strptime : String → Option DT)
    (st : ClientState) (since_time : Option DT) (outcome : TransportOutcome FetchBody) :
    (fetch_verification_code extract strptime st since_time outcome).2.countP
      Event.isNetRequest = 1 := by
  cases outcome with
  | exn e => simp [fetch_verification_code, fetch_body, request_, Event.isNetRequest]
  | resp status body =>
    by_cases hs : status = 200
    · cases body with
      | jsonError e =>
        simp [fetch_verification_code, fetch_body, request_, hs, Event.isNetRequest]
      | payload success emails =>
        cases success with
        | false => simp [fetch_verification_code, fetch_body, request_, hs, Event.isNetRequest]
        | true =>
          rcases h : scanMessages extract strptime since_time emails with ⟨r, ev2⟩
          have hscan := countP_scanMessages extract strptime since_time emails
          rw [h] at hscan
          by_cases he : emails = [] <;>
            simp [fetch_verification_code, fetch_body, request_, hs, he, h,
              Event.isNetRequest, hscan]
    · simp [fetch_verification_code, fetch_body, request_, hs, Event.isNetRequest]

theorem pollLoop_all_none (fetchAt : Nat → Option String × List Event) (interval : Int)
    (max_retries : Nat) (hint : 0 ≤ interval)
    (hnone : ∀ i, (fetchAt i).1 = none)
    (hcount : ∀ i, (fetchAt i).2.countP Event.isNetRequest = 1) :
    ∀ idxs : List Nat,
      (pollLoop fetchAt interval max_retries idxs).1 = Except.ok none ∧
      (pollLoop fetchAt interval max_retries idxs).2.countP Event.isNetRequest = idxs.length
  | [] => by simp [pollLoop]
  | i :: rest => by
    have ih := pollLoop_all_none fetchAt interval max_retries hint hnone hcount rest
    rcases hr : pollLoop fetchAt interval max_retries rest with ⟨r, ev2⟩
    rw [hr] at ih
    have hni : ¬ interval < 0 := not_lt.mpr hint
    rcases hf : fetchAt i with ⟨code, ev⟩
    have hc : code = none := by rw [← hnone i, hf]
    have hcv : ev.countP Event.isNetRequest = 1 := by rw [← hcount i, hf]
    subst hc
    by_cases hi : i < max_retries <;>
      simp [pollLoop, hf, hr, hi, hni, truthyStr, ih.1, ih.2, hcv, Event.isNetRequest,
        Nat.add_comm]

theorem pollLoop_no_error (fetchAt : Nat → Option String × List Event) (interval : Int)
    (max_retries : Nat) (hint : 0 ≤ interval) :
    ∀ idxs : List Nat, ∃ r, (pollLoop fetchAt interval max_retries idxs).1 = Except.ok r
  | [] => ⟨none, by simp [pollLoop]⟩
  | i :: rest => by
    obtain ⟨r, ih⟩ := pollLoop_no_error fetchAt interval max_retries hint rest
    rcases hr : pollLoop fetchAt interval max_retries rest with ⟨r2, ev2⟩
    rw [hr] at ih
    have hni : ¬ interval < 0 := not_lt.mpr hint
    rcases hf : fetchAt i with ⟨code, ev⟩
    by_cases hcode : truthyStr code = true
    · exact ⟨code, by simp [pollLoop, hf, hcode]⟩
    · have hcode2 : truthyStr code = false := by
        cases h : truthyStr code
        · rfl
        · exact absurd h hcode
      by_cases hi : i < max_retries
      · exact ⟨r, by simp [pollLoop, hf, hcode2, hi, hni, hr, ih]⟩
      · exact ⟨r, by simp [pollLoop, hf, hcode2, hi, hr, ih]⟩

/-- C2: `poll_for_code` called while `self.email` is `None` logs an
error and returns `None` at once: its entire trace is that single log
line, so in particular it contains no network request. -/
theorem poll_without_registration {DT : Type} [LinearOrder DT]
    (extract : String → Option String) (strptime : String → Option DT)
    (st : ClientState) (timeout interval : Int) (since_time : Option DT)
    (provider : Nat → TransportOutcome FetchBody) (hem : st.email = none) :
    poll_for_code extract strptime st timeout interval since_time provider =
      (Except.ok none, [Event.log "error" "❌ No email address to poll for"]) ∧
    (poll_for_code extract strptime st timeout interval since_time provider).2.countP
      Event.isNetRequest = 0 := by
  have h1 : truthyStr st.email = false := by rw [hem]; rfl
  refine ⟨by simp [poll_for_code, h1], ?_⟩
  simp [poll_for_code, h1, Event.isNetRequest]

theorem poll_without_registration_witness :
    poll_for_code (fun _ => none) (fun _ => (none : Option Int))
        { base_url := "b", api_key := "", email := none } 120 4 none
        (fun _ => TransportOutcome.resp 200 (FetchBody.payload true [])) =
      (Except.ok none, [Event.log "error" "❌ No email address to poll for"]) :=
  (poll_without_registration _ _ _ 120 4 none _ rfl).1

/-- C8: a single fetch-and-scan step (`_fetch_verification_code`) turns
a transport exception or a non-200 status into the result `None`
instead of raising, so the polling loop treats it as "no code yet". -/
theorem fetch_step_failure_returns_none {DT : Type} [LinearOrder DT]
    (extract : String → Option String) (strptime : String → Option DT)
    (st : ClientState) (since_time : Option DT) :
    (∀ e : PyExn,
      (fetch_verification_code extract strptime st since_time (TransportOutcome.exn e)).1 =
        none) ∧
    (∀ (status : Int) (body : FetchBody), status ≠ 200 →
      (fetch_verification_code extract strptime st since_time
          (TransportOutcome.resp status body)).1 = none) := by
  constructor
  · intro e
    simp [fetch_verification_code, fetch_body, request_]
  · intro status body hs
    simp [fetch_verification_code, fetch_body, request_, hs]

theorem fetch_step_failure_returns_none_witness :
    (fetch_verification_code (fun _ => some "123456") (fun _ => (none : Option Int))
        { base_url := "b", api_key := "", email := some "a@b" } none
        (TransportOutcome.exn (PyExn.requestException "boom"))).1 = none ∧
    (fetch_verification_code (fun _ => some "123456") (fun _ => (none : Option Int))
        { base_url := "b", api_key := "", email := some "a@b" } none
        (TransportOutcome.resp 500 (FetchBody.payload true
          [{ created_at := none, content := "code 123456", html_content := "" }]))).1 =
      none :=
  ⟨(fetch_step_failure_returns_none _ _ _ _).1 (PyExn.requestException "boom"),
   (fetch_step_failure_returns_none _ _ _ _).2 500 _ (by decide)⟩

/-- C10: with a registered mailbox, a positive interval and
`timeout // interval = 0`, the loop body of `poll_for_code` never runs:
the call returns `None` with no fetch (network request) and no sleep in
its trace. -/
theorem poll_zero_attempts {DT : Type} [LinearOrder DT]
    (extract : String → Option String) (strptime : String → Option DT)
    (st : ClientState) (timeout interval : Int) (since_time : Option DT)
    (provider : Nat → TransportOutcome FetchBody)
    (hem : truthyStr st.email = true) (hpos : 0 < interval)
    (hfd : Int.fdiv timeout interval = 0) :
    (poll_for_code extract strptime st timeout interval since_time provider).1 =
      Except.ok none ∧
    (poll_for_code extract strptime st timeout interval since_time provider).2.countP
      Event.isNetRequest = 0 ∧
    (poll_for_code extract strptime st timeout interval since_time provider).2.countP
      Event.isSleep = 0 := by
  have hnz : interval ≠ 0 := ne_of_gt hpos
  simp [poll_for_code, hem, hnz, hfd, pollLoop, Event.isNetRequest, Event.isSleep]

theorem poll_zero_attempts_witness :
    (poll_for_code (fun _ => some "123456") (fun _ => (none : Option Int))
        { base_url := "b", api_key := "", email := some "a@b" } 3 4 none
        (fun _ => TransportOutcome.resp 200 (FetchBody.payload true []))).1 =
      Except.ok none ∧
    (poll_for_code (fun _ => some "123456") (fun _ => (none : Option Int))
        { base_url := "b", api_key := "", email := some "a@b" } 3 4 none
        (fun _ => TransportOutcome.resp 200 (FetchBody.payload true []))).2.countP
      Event.isNetRequest = 0 ∧
    (poll_for_code (fun _ => some "123456") (fun _ => (none : Option Int))
        { base_url := "b", api_key := "", email := some "a@b" } 3 4 none
        (fun _ => TransportOutcome.resp 200 (FetchBody.payload true []))).2.countP
      Event.isSleep = 0 :=
  poll_zero_attempts _ _ _ 3 4 none _ (by decide) (by decide) (by decide)

/-- C1: with a registered mailbox, a nonnegative timeout and a positive
interval, if no fetch-and-scan attempt yields a code then
`poll_for_code` performs exactly `timeout // interval` (Python floor
division) fetch calls — counted as network requests in the trace — and
returns `None`. -/
theorem poll_exact_attempt_count {DT : Type} [LinearOrder DT]
    (extract : String → Option String) (strptime : String → Option DT)
    (st : ClientState) (timeout interval : Int) (since_time : Option DT)
    (provider : Nat → TransportOutcome FetchBody)
    (hem : truthyStr st.email = true) (ht : 0 ≤ timeout) (hpos : 0 < interval)
    (hnone : ∀ i,
      (fetch_verification_code extract strptime st since_time (provider i)).1 = none) :
    (poll_for_code extract strptime st timeout interval since_time provider).1 =
      Except.ok none ∧
    ((poll_for_code extract strptime st timeout interval since_time provider).2.countP
        Event.isNetRequest : Int) = Int.fdiv timeout interval := by
  have hnz : interval ≠ 0 := ne_of_gt hpos
  have hcount : ∀ i,
      (fetch_verification_code extract strptime st since_time (provider i)).2.countP
        Event.isNetRequest = 1 :=
    fun i => countP_fetch extract strptime st since_time (provider i)
  have hmain := pollLoop_all_none
    (fun i => fetch_verification_code extract strptime st since_time (provider i))
    interval (Int.fdiv timeout interval).toNat (le_of_lt hpos) hnone hcount
    ((List.range (Int.fdiv timeout interval).toNat).map (fun n => n + 1))
  rcases hp : pollLoop
      (fun i => fetch_verification_code extract strptime st since_time (provider i))
      interval (Int.fdiv timeout interval).toNat
      ((List.range (Int.fdiv timeout interval).toNat).map (fun n => n + 1)) with ⟨r, ev⟩
  rw [hp] at hmain
  obtain ⟨hr, hev⟩ := hmain
  simp only at hr hev
  subst hr
  have hcast : ((Int.fdiv timeout interval).toNat : Int) = Int.fdiv timeout interval :=
    Int.toNat_of_nonneg (Int.fdiv_nonneg ht (le_of_lt hpos))
  constructor
  · simp [poll_for_code, hem, hnz, hp]
  · simp only [poll_for_code, hem, Bool.true_eq_false, if_false, hnz, if_neg, hp]
    simp [hev, Event.isNetRequest, hnz, hcast]

theorem poll_exact_attempt_count_witness :
    (poll_for_code (fun _ => none) (fun _ => (none : Option Int))
        { base_url := "b", api_key := "", email := some "a@b" } 10 4 none
        (fun _ => TransportOutcome.resp 200 (FetchBody.payload true []))).1 =
      Except.ok none ∧
    ((poll_for_code (fun _ => none) (fun _ => (none : Option Int))
        { base_url := "b", api_key := "", email := some "a@b" } 10 4 none
        (fun _ => TransportOutcome.resp 200 (FetchBody.payload true []))).2.countP
        Event.isNetRequest : Int) = Int.fdiv 10 4 :=
  poll_exact_attempt_count _ _ _ 10 4 none _ (by decide) (by decide) (by decide)
    (fun _ => rfl)

/-- C4: with a registered mailbox, `timeout = 12` and `interval = 4`,
and no attempt yielding a code, `poll_for_code` makes exactly 3
attempts, sleeping `interval` seconds after attempt 1 and attempt 2 and
not after attempt 3: the full trace is the polling log, the three fetch
traces with a sleep between consecutive ones, and the timeout log. -/
theorem poll_sleep_pattern {DT : Type} [LinearOrder DT]
    (extract : String → Option String) (strptime : String → Option DT)
    (st : ClientState) (since_time : Option DT)
    (provider : Nat → TransportOutcome FetchBody)
    (hem : truthyStr st.email = true)
    (hnone : ∀ i,
      (fetch_verification_code extract strptime st since_time (provider i)).1 = none) :
    poll_for_code extract strptime st 12 4 since_time provider =
      (Except.ok none,
        Event.log "info" "⏱️ Polling for code (timeout 12s)..." ::
          ((fetch_verification_code extract strptime st since_time (provider 1)).2 ++
            Event.sleep 4 ::
              ((fetch_verification_code extract strptime st since_time (provider 2)).2 ++
                Event.sleep 4 ::
                  ((fetch_verification_code extract strptime st since_time
                      (provider 3)).2 ++
                    [Event.log "error" "⏰ Polling timed out after 12s"])))) := by
  have h3 : ((12 : Int).fdiv 4).toNat = 3 := rfl
  have hidx : (List.range 3).map (fun n => n + 1) = [1, 2, 3] := rfl
  rcases hf1 : fetch_verification_code extract strptime st since_time (provider 1)
    with ⟨c1, T1⟩
  rcases hf2 : fetch_verification_code extract strptime st since_time (provider 2)
    with ⟨c2, T2⟩
  rcases hf3 : fetch_verification_code extract strptime st since_time (provider 3)
    with ⟨c3, T3⟩
  have hc1 : c1 = none := by have h := hnone 1; rw [hf1] at h; exact h
  have hc2 : c2 = none := by have h := hnone 2; rw [hf2] at h; exact h
  have hc3 : c3 = none := by have h := hnone 3; rw [hf3] at h; exact h
  subst hc1 hc2 hc3
  simp only [poll_for_code, hem, Bool.true_eq_false, if_false, h3, hidx, hf1, hf2, hf3]
  rw [if_neg (by decide : ¬ (4 : Int) = 0)]
  simp only [pollLoop, hf1, hf2, hf3, truthyStr]
  norm_num
  exact ⟨rfl, rfl⟩

theorem poll_sleep_pattern_witness :
    poll_for_code (fun _ => none) (fun _ => (none : Option Int))
        { base_url := "b", api_key := "", email := some "a@b" } 12 4 none
        (fun _ => TransportOutcome.resp 200 (FetchBody.payload true [])) =
      (Except.ok none,
        Event.log "info" "⏱️ Polling for code (timeout 12s)..." ::
          ((fetch_verification_code (fun _ => none) (fun _ => (none : Option Int))
              { base_url := "b", api_key := "", email := some "a@b" } none
              (TransportOutcome.resp 200 (FetchBody.payload true []))).2 ++
            Event.sleep 4 ::
              ((fetch_verification_code (fun _ => none) (fun _ => (none : Option Int))
                  { base_url := "b", api_key := "", email := some "a@b" } none
                  (TransportOutcome.resp 200 (FetchBody.payload true []))).2 ++
                Event.sleep 4 ::
                  ((fetch_verification_code (fun _ => none) (fun _ => (none : Option Int))
                      { base_url := "b", api_key := "", email := some "a@b" } none
                      (TransportOutcome.resp 200 (FetchBody.payload true []))).2 ++
                    [Event.log "error" "⏰ Polling timed out after 12s"])))) :=
  poll_sleep_pattern _ _ _ none _ (by decide) (fun _ => rfl)

/-- C3: on a transport exception, a non-200 status, or a 200 response
whose body is not a success (unparsable JSON or a falsy success flag),
`register_account` returns `False` and `self.email` is unchanged. -/
theorem register_failure_leaves_state (st : ClientState) (domain : Option String)
    (rng : Nat → Nat) (outcome : TransportOutcome RegBody)
    (h : regNonSuccess outcome = true) :
    (register_account st domain rng outcome).1 = Except.ok false ∧
    (register_account st domain rng outcome).2.1.email = st.email := by
  cases hd : truthyStr domain <;>
  · rcases outcome with e | ⟨status, body⟩
    · simp [register_account, register_try, request_, hd]
    · by_cases hs : status = 200
      · rcases body with e | ⟨success, dataEmail, errMsg⟩
        · simp [register_account, register_try, request_, hd, hs]
        · cases success
          · simp [register_account, register_try, request_, hd, hs]
          · exfalso
            simp [regNonSuccess, hs] at h
      · simp [register_account, register_try, request_, hd, hs]

theorem register_failure_leaves_state_witness :
    regNonSuccess (TransportOutcome.resp 500 (RegBody.fields true (some "x@y") none)) =
      true ∧
    (register_account { base_url := "b", api_key := "", email := none } none
        (fun n => n)
        (TransportOutcome.resp 500 (RegBody.fields true (some "x@y") none))).1 =
      Except.ok false ∧
    (register_account { base_url := "b", api_key := "", email := none } none
        (fun n => n)
        (TransportOutcome.resp 500 (RegBody.fields true (some "x@y") none))).2.1.email =
      none :=
  ⟨by decide,
   (register_failure_leaves_state _ none _ _ (by decide)).1,
   (register_failure_leaves_state _ none _ _ (by decide)).2⟩

/-- C7 counterexample: calling `poll_for_code` with a registered mailbox
and `interval = 0` raises an uncaught `ZeroDivisionError` while
computing `timeout // interval`, so not every input has its failure
converted to a return value. -/
theorem poll_interval_zero_raises :
    (poll_for_code (fun _ => none) (fun _ => (none : Option Int))
        { base_url := "b", api_key := "", email := some "a@b" } 120 0 none
        (fun _ => TransportOutcome.resp 200 (FetchBody.payload true []))).1 =
      Except.error PyExn.zeroDivisionError := rfl

/-- C7 (amended): for every positive interval — excluding `interval = 0`
(`ZeroDivisionError`) and negative intervals (`time.sleep` raises
`ValueError`) — `poll_for_code` never propagates an exception, and
`register_account` never propagates an exception for any input: every
failure becomes an ordinary return value. -/
theorem no_uncaught_failures :
    (∀ (DT : Type) [LinearOrder DT] (extract : String → Option String)
        (strptime : String → Option DT) (st : ClientState) (timeout interval : Int)
        (since_time : Option DT) (provider : Nat → TransportOutcome FetchBody),
        0 < interval →
        ∃ r, (poll_for_code extract strptime st timeout interval since_time provider).1 =
          Except.ok r) ∧
    (∀ (st : ClientState) (domain : Option String) (rng : Nat → Nat)
        (outcome : TransportOutcome RegBody),
        ∃ b, (register_account st domain rng outcome).1 = Except.ok b) := by
  constructor
  · intro DT _ extract strptime st timeout interval since_time provider hpos
    by_cases hem : truthyStr st.email = true
    · have hnz : interval ≠ 0 := ne_of_gt hpos
      obtain ⟨r, hr⟩ := pollLoop_no_error
        (fun i => fetch_verification_code extract strptime st since_time (provider i))
        interval (Int.fdiv timeout interval).toNat (le_of_lt hpos)
        ((List.range (Int.fdiv timeout interval).toNat).map (fun n => n + 1))
      rcases hp : pollLoop
          (fun i => fetch_verification_code extract strptime st since_time (provider i))
          interval (Int.fdiv timeout interval).toNat
          ((List.range (Int.fdiv timeout interval).toNat).map (fun n => n + 1))
        with ⟨r2, ev⟩
      rw [hp] at hr
      simp only at hr
      subst hr
      cases r with
      | none => exact ⟨none, by simp [poll_for_code, hem, hnz, hp]⟩
      | some c => exact ⟨some c, by simp [poll_for_code, hem, hnz, hp]⟩
    · have hem2 : truthyStr st.email = false := by
        cases h : truthyStr st.email
        · rfl
        · exact absurd h hem
      exact ⟨none, by simp [poll_for_code, hem2]⟩
  · intro st domain rng outcome
    rcases h : register_try st domain rng outcome with ⟨res, st2, ev⟩
    cases res with
    | ok b => exact ⟨b, by simp [register_account, h]⟩
    | error e => exact ⟨false, by simp [register_account, h]⟩

theorem no_uncaught_failures_witness :
    (∃ r, (poll_for_code (fun _ => none) (fun _ => (none : Option Int))
        { base_url := "b", api_key := "", email := some "a@b" } 120 4 none
        (fun _ => TransportOutcome.exn (PyExn.requestException "down"))).1 =
      Except.ok r) ∧
    (∃ b, (register_account { base_url := "b", api_key := "", email := none } none
        (fun n => n) (TransportOutcome.exn (PyExn.requestException "down"))).1 =
      Except.ok b) :=
  ⟨no_uncaught_failures.1 Int (fun _ => none) (fun _ => none) _ 120 4 none _ (by decide),
   no_uncaught_failures.2 _ none _ _⟩

theorem register_netRequests (st : ClientState) (domain : Option String)
    (rng : Nat → Nat) (outcome : TransportOutcome RegBody) :
    netRequests (register_account st domain rng outcome).2.2 =
      [if truthyStr domain = true then
          Event.netRequest "POST" (st.base_url ++ "/api/generate-email")
            (some (generatedLocalPart rng, domain.getD ""))
        else Event.netRequest "GET" (st.base_url ++ "/api/generate-email") none] := by
  cases hd : truthyStr domain <;>
  · rcases outcome with e | ⟨status, body⟩
    · simp [register_account, register_try, request_, netRequests, hd, Event.isNetRequest]
    · by_cases hs : status = 200
      · rcases body with e | ⟨success, dataEmail, errMsg⟩
        · simp [register_account, register_try, request_, netRequests, hd, hs,
            Event.isNetRequest]
        · cases success
          · simp [register_account, register_try, request_, netRequests, hd, hs,
              Event.isNetRequest]
          · rcases dataEmail with _ | em <;>
              simp [register_account, register_try, request_, netRequests, hd, hs,
                Event.isNetRequest]
      · simp [register_account, register_try, request_, netRequests, hd, hs,
          Event.isNetRequest]

/-- C5 counterexample: the empty string is a given domain argument, yet
(being falsy) `register_account` issues a GET request for a
provider-chosen address, not a POST with a generated local-part. -/
theorem register_empty_domain_issues_get :
    netRequests (register_account { base_url := "b", api_key := "", email := none }
        (some "") (fun n => n)
        (TransportOutcome.resp 200 (RegBody.fields true (some "x@y") none))).2.2 =
      [Event.netRequest "GET" "b/api/generate-email" none] := rfl

/-- C5 (amended): when a nonempty (truthy) domain is given,
`register_account` issues exactly one network request, a POST whose
generated local-part has length 10 and draws only from lowercase ASCII
letters and digits; when the domain is absent (and likewise when it is
the falsy empty string), it issues exactly one GET request. -/
theorem register_request_shape :
    (∀ (st : ClientState) (d : String) (rng : Nat → Nat)
        (outcome : TransportOutcome RegBody), d ≠ "" →
        netRequests (register_account st (some d) rng outcome).2.2 =
          [Event.netRequest "POST" (st.base_url ++ "/api/generate-email")
            (some (generatedLocalPart rng, d))] ∧
        (generatedLocalPart rng).length = 10 ∧
        ∀ c ∈ (generatedLocalPart rng).data, c ∈ ascii_lowercase ++ string_digits) ∧
    (∀ (st : ClientState) (rng : Nat → Nat) (outcome : TransportOutcome RegBody),
        netRequests (register_account st none rng outcome).2.2 =
          [Event.netRequest "GET" (st.base_url ++ "/api/generate-email") none]) := by
  have hlen : ∀ rng : Nat → Nat, (generatedLocalPart rng).length = 10 := by
    intro rng
    simp [generatedLocalPart, random_choices, String.length]
  have hmem : ∀ (rng : Nat → Nat), ∀ c ∈ (generatedLocalPart rng).data,
      c ∈ ascii_lowercase ++ string_digits := by
    intro rng c hc
    simp only [generatedLocalPart, random_choices, String.mk, List.mem_map, List.mem_range] at hc
    obtain ⟨i, _, rfl⟩ := hc
    have hpop : 0 < (ascii_lowercase ++ string_digits).length := by decide
    have hlt : rng i % (ascii_lowercase ++ string_digits).length <
        (ascii_lowercase ++ string_digits).length := Nat.mod_lt _ hpop
    rw [List.getD_eq_getElem _ _ hlt]
    exact List.getElem_mem hlt
  constructor
  · intro st d rng outcome hd
    have htr : truthyStr (some d) = true := by simp [truthyStr, hd]
    have h := register_netRequests st (some d) rng outcome
    rw [htr] at h
    simp only [if_true] at h
    exact ⟨by simpa using h, hlen rng, hmem rng⟩
  · intro st rng outcome
    have h := register_netRequests st none rng outcome
    simpa [truthyStr] using h

theorem register_request_shape_witness :
    netRequests (register_account { base_url := "b", api_key := "", email := none }
        (some "example.com") (fun n => n)
        (TransportOutcome.resp 200 (RegBody.fields true (some "x@example.com") none))).2.2 =
      [Event.netRequest "POST" "b/api/generate-email"
        (some (generatedLocalPart (fun n => n), "example.com"))] ∧
    (generatedLocalPart (fun n => n)).length = 10 ∧
    ∀ c ∈ (generatedLocalPart (fun n => n)).data, c ∈ ascii_lowercase ++ string_digits :=
  register_request_shape.1 _ "example.com" _ _ (by decide)

/-- C6: with a `since_time`, a message whose `created_at` parses to a
timestamp strictly earlier than `since_time` is skipped — scanning is
exactly scanning the remaining messages, so its text is never handed to
the extractor even if it contains a code; a message whose `created_at`
is present (and nonempty) but fails to parse is fail-open: its combined
text is the very next thing handed to the extractor. -/
theorem stale_message_filter :
    (∀ (DT : Type) [LinearOrder DT] (extract : String → Option String)
        (strptime : String → Option DT) (t : DT) (msg : Message)
        (rest : List Message) (s : String) (mt : DT),
        msg.created_at = some s → s ≠ "" → strptime s = some mt → mt < t →
        scanMessages extract strptime (some t) (msg :: rest) =
          scanMessages extract strptime (some t) rest) ∧
    (∀ (DT : Type) [LinearOrder DT] (extract : String → Option String)
        (strptime : String → Option DT) (t : DT) (msg : Message)
        (rest : List Message) (s : String),
        msg.created_at = some s → s ≠ "" → strptime s = none →
        (scanMessages extract strptime (some t) (msg :: rest)).2.head? =
          some (Event.extractCall (msg.content ++ " " ++ msg.html_content))) := by
  constructor
  · intro DT _ extract strptime t msg rest s mt hca hs hp hlt
    simp [scanMessages, hca, hs, hp, hlt]
  · intro DT _ extract strptime t msg rest s hca hs hp
    rcases h2 : scanMessages extract strptime (some t) rest with ⟨r, ev2⟩
    cases hx : extract (msg.content ++ " " ++ msg.html_content) with
    | none => simp [scanMessages, hca, hs, hp, hx, h2]
    | some c =>
      by_cases hc : c = "" <;> simp [scanMessages, hca, hs, hp, hx, hc, h2]

theorem stale_message_filter_witness :
    scanMessages (fun _ => some "123456")
        (fun s => if s = "2025-11-13 10:30:00" then some (1 : Int) else none) (some 5)
        [{ created_at := some "2025-11-13 10:30:00", content := "code 123456",
           html_content := "" }] =
      scanMessages (fun _ => some "123456")
        (fun s => if s = "2025-11-13 10:30:00" then some (1 : Int) else none) (some 5)
        [] ∧
    (scanMessages (fun _ => some "123456") (fun _ => (none : Option Int)) (some 5)
        [{ created_at := some "not a date", content := "code 123456",
           html_content := "" }]).2.head? =
      some (Event.extractCall ("code 123456" ++ " " ++ "")) :=
  ⟨stale_message_filter.1 Int _ _ 5 _ [] "2025-11-13 10:30:00" 1 rfl (by decide)
      (by simp) (by decide),
   stale_message_filter.2 Int _ _ 5 _ [] "not a date" rfl (by decide) rfl⟩

/-- C9: with a `since_time`, a message whose `created_at` field is
entirely absent bypasses the stale-message filter: its combined text is
the very next thing handed to the extractor. -/
theorem missing_timestamp_is_scanned {DT : Type} [LinearOrder DT]
    (extract : String → Option String) (strptime : String → Option DT) (t : DT)
    (msg : Message) (rest : List Message) (hca : msg.created_at = none) :
    (scanMessages extract strptime (some t) (msg :: rest)).2.head? =
      some (Event.extractCall (msg.content ++ " " ++ msg.html_content)) := by
  rcases h2 : scanMessages extract strptime (some t) rest with ⟨r, ev2⟩
  cases hx : extract (msg.content ++ " " ++ msg.html_content) with
  | none => simp [scanMessages, hca, hx, h2]
  | some c =>
    by_cases hc : c = "" <;> simp [scanMessages, hca, hx, hc, h2]

theorem missing_timestamp_is_scanned_witness :
    (scanMessages (fun _ => some "123456") (fun _ => (none : Option Int)) (some 5)
        [{ created_at := none, content := "code 123456", html_content := "<b>hi</b>" }]).2.head? =
      some (Event.extractCall ("code 123456" ++ " " ++ "<b>hi</b>")) :=
  missing_timestamp_is_scanned _ _ 5 _ [] rfl

end GPTMail
